import Mathlib

/-!
Shallow embedding of `src/utils/rodadaConfig.ts`.

The module reads and writes configuration values in a remote store
(two tables: `configuracoes`, a key-value table keyed by `chave`, and
`rodadas`; plus the history table `historico_sabores_rodada`).  The
store is modelled as explicit table contents (`DB`) together with a
fault assignment (`Faults`) describing, for each request, whether the
store answers normally, answers with an error object, or rejects the
awaited promise (modelled as `Except.error`).

JavaScript numbers produced by `parseInt` may be `NaN`; they are
modelled as `Option Int`, with `none` standing for `NaN`.
-/

/-- A JavaScript number that may be `NaN` (`none` = `NaN`). -/
abbrev JsNum := Option Int

/-- Digit character for a single decimal digit value. -/
def dChar (d : Nat) : Char :=
  if d = 0 then '0' else if d = 1 then '1' else if d = 2 then '2' else if d = 3 then '3'
  else if d = 4 then '4' else if d = 5 then '5' else if d = 6 then '6'
  else if d = 7 then '7' else if d = 8 then '8' else '9'

/-- Decimal digit characters of a natural number, most significant first. -/
def natDigitsChars (n : Nat) : List Char :=
  if n < 10 then [dChar n]
  else natDigitsChars (n / 10) ++ [dChar (n % 10)]
termination_by n
decreasing_by exact Nat.div_lt_self (by omega) (by omega)

/-- Digit characters with trailing zeros removed, as in the shortest
significand JS prints for an integral value that its double represents
exactly. -/
def stripTrailingZeros (ds : List Char) : List Char :=
  (ds.reverse.dropWhile (fun c => c = '0')).reverse

/-- Assemble the JS exponential form from significand digits and
exponent digits: one leading digit, an optional point and remaining
digits, then e, plus sign and the exponent. -/
def expString (sig e : List Char) : String :=
  match sig with
  | [] => "0"
  | [c] => String.mk (c :: 'e' :: '+' :: e)
  | c :: rest => String.mk (c :: '.' :: (rest ++ 'e' :: '+' :: e))

/-- The exponential notation JS prints for an integral value of 10^21 or
more: significand digits (trailing zeros dropped) and the decimal
exponent, e.g. 10^21 prints as 1e+21. -/
def jsExpNotation (n : Nat) : String :=
  expString (stripTrailingZeros (natDigitsChars n))
    (natDigitsChars ((natDigitsChars n).length - 1))

/-- Embedding of `Number.prototype.toString()` (radix 10) on a
non-negative integral value: plain decimal digits below 10^21, JS
exponential notation from 10^21 on.  (Values of 2^53 or more are taken
to be exactly representable doubles, the only ones the program can
receive.) -/
def jsNatToString (n : Nat) : String :=
  if n < 10 ^ 21 then String.mk (natDigitsChars n) else jsExpNotation n

/-- Embedding of `Number.prototype.toString()` (radix 10) for integral
values, as used by `numeroPizzas.toString()` in the save operations. -/
def jsIntToString (n : Int) : String :=
  if n < 0 then "-" ++ jsNatToString (-n).toNat else jsNatToString n.toNat

/-- Numeric value of a digit character. -/
def digitVal (c : Char) : Nat := c.toNat - 48

/-- Value of a most-significant-first list of digit characters. -/
def natFromDigits (ds : List Char) : Nat :=
  ds.foldl (fun a c => a * 10 + digitVal c) 0

/-- Parse the longest leading run of decimal digits; `none` when there is
no leading digit (which makes JS `parseInt` produce `NaN`). -/
def parseNatPrefix (cs : List Char) : Option Nat :=
  let ds := cs.takeWhile (fun c => c.isDigit)
  if ds.isEmpty then none else some (natFromDigits ds)

/-- Embedding of JS `parseInt(s)` on decimal input: skip leading
whitespace, accept an optional sign, parse the longest leading digit
run; `none` (= `NaN`) when no digits are found.  (The radix-16 form
`0x…` of `parseInt` is not reachable from the values this module
stores and is not modelled.) -/
def parseIntJS (s : String) : JsNum :=
  match s.data.dropWhile (fun c => c.isWhitespace) with
  | [] => none
  | c :: rest =>
    if c = '-' then (parseNatPrefix rest).map (fun n => -(n : Int))
    else if c = '+' then (parseNatPrefix rest).map (fun n => (n : Int))
    else (parseNatPrefix (c :: rest)).map (fun n => (n : Int))

/-- A row of the `configuracoes` table.  `chave` is the unique key. -/
structure ConfigEntry where
  chave : String
  valor : String
  descricao : String
deriving DecidableEq, Repr

/-- A row of the `historico_sabores_rodada` table (only the columns this
module touches). -/
structure HistoricoSabor where
  rodada_id : String
  ordem : Int
deriving DecidableEq, Repr

/-- A row of the `rodadas` table (only the selected columns). -/
structure Rodada where
  numero : Int
  status : String
deriving DecidableEq, Repr

/-- The remote store contents.  `chave` is unique in `configuracoes`
(writes go through upsert-by-`chave`), so single-row lookup returns the
first match. -/
structure DB where
  configuracoes : List ConfigEntry
  historico_sabores_rodada : List HistoricoSabor
  rodadas : List Rodada
deriving DecidableEq, Repr

/-- Outcome imposed by the store on one request: answer normally, answer
with an error object carrying a code, or reject the awaited promise. -/
inductive Fault where
  | ok
  | err (code : String)
  | thrown
deriving DecidableEq, Repr

/-- Fault assignment for every request the module can issue. -/
structure Faults where
  configQ : String → Fault
  historicoQ : String → Fault
  rodadasQ : Fault
  upsertQ : String → Fault

/-- The store behaviour in which every request answers normally. -/
def noFaults : Faults :=
  { configQ := fun _ => Fault.ok
    historicoQ := fun _ => Fault.ok
    rodadasQ := Fault.ok
    upsertQ := fun _ => Fault.ok }

/-- Result object of a `.single()` select: `data` (the `valor` column)
and an optional error code.  PostgREST reports a missing row through
error code `PGRST116` with `data` null. -/
structure SingleRes where
  data : Option String
  error : Option String
deriving DecidableEq, Repr

/-- First `valor` stored under key `k`. -/
def lookupConfig (l : List ConfigEntry) (k : String) : Option String :=
  (l.find? (fun e => e.chave == k)).map (fun e => e.valor)

/-- The single-row valor select on the configuracoes table keyed by chave. -/
def selectSingle (db : DB) (f : Faults) (k : String) : Except Unit SingleRes :=
  match f.configQ k with
  | Fault.thrown => Except.error ()
  | Fault.err c => Except.ok { data := none, error := some c }
  | Fault.ok =>
    match lookupConfig db.configuracoes k with
    | some v => Except.ok { data := some v, error := none }
    | none => Except.ok { data := none, error := some "PGRST116" }

/-- `ordem` values recorded in `historico_sabores_rodada` for one round. -/
def ordensRodada (db : DB) (rid : String) : List Int :=
  (db.historico_sabores_rodada.filter (fun h => h.rodada_id == rid)).map
    (fun h => h.ordem)

/-- The ordem select on the history table filtered by round id, ordered
descending by ordem and limited to one row: `none` models an error
answer (`data` null), otherwise the `ordem` column of the returned
rows. -/
def selectHistorico (db : DB) (f : Faults) (rid : String) :
    Except Unit (Option (List Int)) :=
  match f.historicoQ rid with
  | Fault.thrown => Except.error ()
  | Fault.err _ => Except.ok none
  | Fault.ok =>
    Except.ok (some (((ordensRodada db rid).mergeSort
      (fun a b => decide (b ≤ a))).take 1))

/-- The numero and status select on the rodadas table, ordered descending. -/
def selectRodadas (db : DB) (f : Faults) : Except Unit (Option (List Rodada)) :=
  match f.rodadasQ with
  | Fault.thrown => Except.error ()
  | Fault.err _ => Except.ok none
  | Fault.ok =>
    Except.ok (some (db.rodadas.mergeSort (fun a b => decide (b.numero ≤ a.numero))))

/-- The resolved configuration object returned by `obterConfigRodada`. -/
structure RodadaConfig where
  numeroPizzasPlanejadas : JsNum
  tempoLimitePorPizza : Int
deriving DecidableEq, Repr

/-- The per-round configuration key `rodada_{rodadaId}_pizzas_planejadas`. -/
def chaveRodada (rodadaId : String) : String :=
  "rodada_" ++ rodadaId ++ "_pizzas_planejadas"

/-- The truthiness test `!error && data` of the source on a `.single()`
result: the stored value when the lookup succeeded, else `none`. -/
def encontrado (r : SingleRes) : Option String :=
  match r.error, r.data with
  | none, some v => some v
  | _, _ => none

/-- Resolution steps of `obterConfigRodada` starting at the history
fallback: infer the planned count from the greatest recorded `ordem`,
else use the hardcoded default 5. -/
def obterDesdeHistoricoBody (db : DB) (f : Faults) (rodadaId : String) :
    Except Unit (Option RodadaConfig) := do
  let saboresRodada ← selectHistorico db f rodadaId
  match saboresRodada with
  | some (ordem :: _) =>
    return some { numeroPizzasPlanejadas := some ordem, tempoLimitePorPizza := 0 }
  | _ =>
    return some { numeroPizzasPlanejadas := some 5, tempoLimitePorPizza := 0 }

/-- Resolution steps of `obterConfigRodada` starting at the global
default entry `pizzas_planejadas_padrao`. -/
def obterDesdePadraoBody (db : DB) (f : Faults) (rodadaId : String) :
    Except Unit (Option RodadaConfig) := do
  let configGlobal ← selectSingle db f "pizzas_planejadas_padrao"
  match encontrado configGlobal with
  | some valor =>
    return some { numeroPizzasPlanejadas := parseIntJS valor, tempoLimitePorPizza := 0 }
  | none => obterDesdeHistoricoBody db f rodadaId

/-- The `try` block of `obterConfigRodada`: per-round entry, then global
default, then history, then the hardcoded default. -/
def obterConfigRodadaBody (db : DB) (f : Faults) (rodadaId : String) :
    Except Unit (Option RodadaConfig) := do
  let configEspecifica ← selectSingle db f (chaveRodada rodadaId)
  match encontrado configEspecifica with
  | some valor =>
    return some { numeroPizzasPlanejadas := parseIntJS valor, tempoLimitePorPizza := 0 }
  | none => obterDesdePadraoBody db f rodadaId

/-- The `catch` handler of `obterConfigRodada`: any rejection yields the
hardcoded default `{5, 0}`. -/
def catchPadrao (e : Except Unit (Option RodadaConfig)) : Option RodadaConfig :=
  match e with
  | Except.ok r => r
  | Except.error _ => some { numeroPizzasPlanejadas := some 5, tempoLimitePorPizza := 0 }

/-- `obterConfigRodada` from the source: full resolution chain wrapped in
try/catch. -/
def obterConfigRodada (db : DB) (f : Faults) (rodadaId : String) : Option RodadaConfig :=
  catchPadrao (obterConfigRodadaBody db f rodadaId)

/-- Resolution restarted at the global-default step, with the same
try/catch policy (used to state that an error in the per-round lookup
lets resolution continue with the next source). -/
def obterDesdePadrao (db : DB) (f : Faults) (rodadaId : String) : Option RodadaConfig :=
  catchPadrao (obterDesdePadraoBody db f rodadaId)

/-- Resolution restarted at the history step, with the same try/catch
policy. -/
def obterDesdeHistorico (db : DB) (f : Faults) (rodadaId : String) : Option RodadaConfig :=
  catchPadrao (obterDesdeHistoricoBody db f rodadaId)

/-- Upsert with conflict target chave: overwrite the row holding the key,
or append a new row. -/
def upsertConfig (l : List ConfigEntry) (e : ConfigEntry) : List ConfigEntry :=
  match l with
  | [] => [e]
  | x :: xs => if x.chave == e.chave then e :: xs else x :: upsertConfig xs e

/-- The row written by `salvarConfigRodada`. -/
def entryConfigRodada (rodadaId : String) (numeroPizzas : Int) : ConfigEntry :=
  { chave := chaveRodada rodadaId
    valor := jsIntToString numeroPizzas
    descricao := "Número de pizzas planejadas para a rodada " ++ rodadaId }

/-- `salvarConfigRodada` from the source: upsert the per-round entry; an
upsert failure is thrown, logged in the catch, and rethrown. -/
def salvarConfigRodada (db : DB) (f : Faults) (rodadaId : String) (numeroPizzas : Int) :
    Except Unit DB :=
  match f.upsertQ (chaveRodada rodadaId) with
  | Fault.ok =>
    Except.ok { db with
      configuracoes := upsertConfig db.configuracoes (entryConfigRodada rodadaId numeroPizzas) }
  | _ => Except.error ()

/-- The row written by `salvarLimiteRodadas`. -/
def entryLimite (numeroRodadas : Int) : ConfigEntry :=
  { chave := "limite_total_rodadas"
    valor := jsIntToString numeroRodadas
    descricao := "Limite máximo de rodadas permitidas no jogo" }

/-- `salvarLimiteRodadas` from the source: upsert the global limit entry;
an upsert failure is thrown, logged in the catch, and rethrown. -/
def salvarLimiteRodadas (db : DB) (f : Faults) (numeroRodadas : Int) : Except Unit DB :=
  match f.upsertQ "limite_total_rodadas" with
  | Fault.ok =>
    Except.ok { db with
      configuracoes := upsertConfig db.configuracoes (entryLimite numeroRodadas) }
  | _ => Except.error ()

/-- The `try` block of `obterLimiteRodadas`: a `.single()` lookup on
`limite_total_rodadas`; an error other than `PGRST116` is thrown, a
present row is parsed, otherwise the default 5 is returned. -/
def obterLimiteRodadasBody (db : DB) (f : Faults) : Except Unit JsNum := do
  let r ← selectSingle db f "limite_total_rodadas"
  if r.error.isSome && r.error != some "PGRST116" then
    Except.error ()
  else
    match r.data with
    | some v => return parseIntJS v
    | none => return some 5

/-- `obterLimiteRodadas` from the source: the lookup wrapped in
try/catch; any caught failure yields the default 5. -/
def obterLimiteRodadas (db : DB) (f : Faults) : JsNum :=
  match obterLimiteRodadasBody db f with
  | Except.ok v => v
  | Except.error _ => some 5

/-- Result object of `verificarSeExcedeuLimiteRodadas`. -/
structure LimiteCheck where
  excedeu : Bool
  totalRodadas : Nat
  limite : JsNum
deriving DecidableEq, Repr

/-- JS `>=` between a genuine integer and a possibly-`NaN` number: any
comparison against `NaN` is false. -/
def jsGeNum (n : Nat) (m : JsNum) : Bool :=
  match m with
  | some k => decide ((n : Int) ≥ k)
  | none => false

/-- The `try` block of `verificarSeExcedeuLimiteRodadas`: get the limit,
fetch the rounds (an error answer is thrown), count the rounds with
status `finalizada`, and compare that count with the limit. -/
def verificarSeExcedeuLimiteRodadasBody (db : DB) (f : Faults) : Except Unit LimiteCheck := do
  let limite := obterLimiteRodadas db f
  let rodadas ← selectRodadas db f
  match rodadas with
  | none => Except.error ()
  | some rows =>
    let rodadasFinalizadas := (rows.filter (fun r => r.status == "finalizada")).length
    return { excedeu := jsGeNum rodadasFinalizadas limite
             totalRodadas := rodadasFinalizadas
             limite := limite }

/-- `verificarSeExcedeuLimiteRodadas` from the source: the check wrapped
in try/catch; any caught failure yields `{false, 0, 5}`. -/
def verificarSeExcedeuLimiteRodadas (db : DB) (f : Faults) : LimiteCheck :=
  match verificarSeExcedeuLimiteRodadasBody db f with
  | Except.ok r => r
  | Except.error _ => { excedeu := false, totalRodadas := 0, limite := some 5 }

/-- Number of fetched rounds whose status is `finalizada`, counted on the
table contents (the fetched list is a permutation of the table). -/
def contagemFinalizadas (db : DB) : Nat :=
  (db.rodadas.filter (fun r => r.status == "finalizada")).length

/-- The resolution policy of `obterConfigRodada` on a store that answers
every request normally, stated as an ordered fallback chain: the parsed
per-round entry, else the parsed global default, else the greatest
recorded `ordem` of the round, else 5. -/
def resolvedConfig (db : DB) (rodadaId : String) : RodadaConfig :=
  match lookupConfig db.configuracoes (chaveRodada rodadaId) with
  | some v => { numeroPizzasPlanejadas := parseIntJS v, tempoLimitePorPizza := 0 }
  | none =>
    match lookupConfig db.configuracoes "pizzas_planejadas_padrao" with
    | some v => { numeroPizzasPlanejadas := parseIntJS v, tempoLimitePorPizza := 0 }
    | none =>
      match (ordensRodada db rodadaId).max? with
      | some m => { numeroPizzasPlanejadas := some m, tempoLimitePorPizza := 0 }
      | none => { numeroPizzasPlanejadas := some 5, tempoLimitePorPizza := 0 }

/-! ### Concrete stores and behaviours used to evaluate the operations -/

/-- An empty store. -/
def dbVazio : DB :=
  { configuracoes := [], historico_sabores_rodada := [], rodadas := [] }

/-- A store whose per-round entry for round `r` holds a non-numeric
string. -/
def dbNaN : DB :=
  { configuracoes := [{ chave := chaveRodada "r", valor := "abc", descricao := "" }]
    historico_sabores_rodada := []
    rodadas := [] }

/-- A store whose per-round entry for round `r` holds the string 7. -/
def dbSete : DB :=
  { configuracoes := [{ chave := chaveRodada "r", valor := "7", descricao := "" }]
    historico_sabores_rodada := []
    rodadas := [] }

/-- A store holding a round limit of 7. -/
def dbLimite7 : DB :=
  { configuracoes := [{ chave := "limite_total_rodadas", valor := "7", descricao := "" }]
    historico_sabores_rodada := []
    rodadas := [] }

/-- A store with limit 3 and rounds finalizada, finalizada, finalizada,
criada. -/
def dbTresFinalizadas : DB :=
  { configuracoes := [{ chave := "limite_total_rodadas", valor := "3", descricao := "" }]
    historico_sabores_rodada := []
    rodadas := [{ numero := 1, status := "finalizada" }, { numero := 2, status := "finalizada" },
      { numero := 3, status := "finalizada" }, { numero := 4, status := "criada" }] }

/-- The store produced by saving 7 planned pizzas for round `r` into the
empty store. -/
def dbConfig7 : DB :=
  { configuracoes := [entryConfigRodada "r" 7], historico_sabores_rodada := [], rodadas := [] }

/-- The store produced by saving a round limit of 10 into the empty
store. -/
def dbLimite10 : DB :=
  { configuracoes := [entryLimite 10], historico_sabores_rodada := [], rodadas := [] }

/-- The store produced by saving 1 planned pizza for round `a` into the
empty store. -/
def dbUmA : DB :=
  { configuracoes := [entryConfigRodada "a" 1], historico_sabores_rodada := [], rodadas := [] }

/-- The store produced by saving the planned count 10^21 for round `r`
into the empty store. -/
def dbGrande : DB :=
  { configuracoes := [entryConfigRodada "r" (1000000000000000000000 : Int)]
    historico_sabores_rodada := []
    rodadas := [] }

/-- The store behaviour in which every request answers with an error
object. -/
def fErro : Faults :=
  { configQ := fun _ => Fault.err "boom"
    historicoQ := fun _ => Fault.err "boom"
    rodadasQ := Fault.err "boom"
    upsertQ := fun _ => Fault.err "boom" }

/-- The store behaviour in which every awaited request rejects. -/
def fRejeita : Faults :=
  { configQ := fun _ => Fault.thrown
    historicoQ := fun _ => Fault.thrown
    rodadasQ := Fault.thrown
    upsertQ := fun _ => Fault.thrown }

/-! ### Decimal round trip: `parseInt` of `toString` -/

theorem dChar_isDigit {d : Nat} (h : d < 10) : (dChar d).isDigit = true := by
  interval_cases d <;> decide

theorem digitVal_dChar {d : Nat} (h : d < 10) : digitVal (dChar d) = d := by
  interval_cases d <;> decide

theorem natDigitsChars_shape (n : Nat) :
    ∃ d t, natDigitsChars n = dChar d :: t ∧ d < 10 := by
  induction n using natDigitsChars.induct with
  | case1 n h => exact ⟨n, [], by rw [natDigitsChars]; simp [h], h⟩
  | case2 n h ih =>
    obtain ⟨d, t, hdt, hd⟩ := ih
    exact ⟨d, t ++ [dChar (n % 10)], by rw [natDigitsChars]; simp [h, hdt], hd⟩

theorem natDigitsChars_allDigits (n : Nat) :
    ∀ c ∈ natDigitsChars n, c.isDigit = true := by
  induction n using natDigitsChars.induct with
  | case1 n h =>
    intro c hc
    rw [natDigitsChars] at hc
    simp [h] at hc
    simpa [hc] using dChar_isDigit h
  | case2 n h ih =>
    intro c hc
    have hmod : n % 10 < 10 := Nat.mod_lt _ (by omega)
    rw [natDigitsChars] at hc
    simp [h, List.mem_append] at hc
    rcases hc with hc | hc
    · exact ih c hc
    · simpa [hc] using dChar_isDigit hmod

theorem natFromDigits_append (ds : List Char) (c : Char) :
    natFromDigits (ds ++ [c]) = natFromDigits ds * 10 + digitVal c := by
  simp [natFromDigits, List.foldl_append]

theorem natFromDigits_natDigitsChars (n : Nat) :
    natFromDigits (natDigitsChars n) = n := by
  induction n using natDigitsChars.induct with
  | case1 n h =>
    rw [natDigitsChars]
    simp [h, natFromDigits, digitVal_dChar h]
  | case2 n h ih =>
    have hmod : n % 10 < 10 := Nat.mod_lt _ (by omega)
    rw [natDigitsChars]
    simp [h, natFromDigits_append, ih, digitVal_dChar hmod]
    omega

theorem parseNatPrefix_natDigitsChars (n : Nat) :
    parseNatPrefix (natDigitsChars n) = some n := by
  obtain ⟨d, t, hdt, hd⟩ := natDigitsChars_shape n
  have hall : (natDigitsChars n).takeWhile (fun c => c.isDigit) = natDigitsChars n :=
    List.takeWhile_eq_self_iff.mpr (by intro x hx; simpa using natDigitsChars_allDigits n x hx)
  have hne : (natDigitsChars n).isEmpty = false := by rw [hdt]; rfl
  rw [parseNatPrefix]
  simp only [hall, hne, Bool.false_eq_true, if_false, natFromDigits_natDigitsChars]

theorem dChar_props {d : Nat} (h : d < 10) :
    (dChar d ≠ '-' ∧ dChar d ≠ '+') ∧ (dChar d).isWhitespace = false := by
  interval_cases d <;> decide

theorem natDigitsChars_lt {n : Nat} (h : n < 10) : natDigitsChars n = [dChar n] := by
  rw [natDigitsChars, if_pos h]

theorem natDigitsChars_ge {n : Nat} (h : 10 ≤ n) :
    natDigitsChars n = natDigitsChars (n / 10) ++ [dChar (n % 10)] := by
  rw [natDigitsChars, if_neg (by omega)]

/-- The decimal round trip, on the decimal-notation range of
`toString`: JS prints magnitudes below 10^21 as plain digits, and
`parseInt` reads them back exactly. -/
theorem parseIntJS_jsIntToString (n : Int) (hb : n.natAbs < 10 ^ 21) :
    parseIntJS (jsIntToString n) = some n := by
  by_cases hn : n < 0
  · have hlt : (-n).toNat < 10 ^ 21 := by omega
    have hdrop : (jsIntToString n).data.dropWhile (fun c => c.isWhitespace)
        = '-' :: natDigitsChars (-n).toNat := by
      rw [jsIntToString, if_pos hn, jsNatToString, if_pos hlt, String.data_append]
      show ('-' :: natDigitsChars (-n).toNat).dropWhile _ = _
      simp only [List.dropWhile_cons]
      rw [if_neg (by decide)]
    unfold parseIntJS
    rw [hdrop]
    simp [parseNatPrefix_natDigitsChars]
    omega
  · have hlt : n.toNat < 10 ^ 21 := by omega
    obtain ⟨d, t, hdt, hd⟩ := natDigitsChars_shape n.toNat
    have hprops := dChar_props hd
    have hdrop : (jsIntToString n).data.dropWhile (fun c => c.isWhitespace)
        = dChar d :: t := by
      rw [jsIntToString, if_neg hn, jsNatToString, if_pos hlt]
      show (natDigitsChars n.toNat).dropWhile _ = _
      rw [hdt]
      simp only [List.dropWhile_cons]
      rw [if_neg (by simp [hprops.2])]
    unfold parseIntJS
    rw [hdrop]
    simp [hprops.1.1, hprops.1.2, ← hdt, parseNatPrefix_natDigitsChars]
    omega

/-! ### Store-level helper lemmas -/

/-- The single row returned by the descending ordered, limited history
query is exactly the maximum recorded value. -/
theorem mergeSortDesc_take_one (l : List Int) :
    ((l.mergeSort (fun a b => decide (b ≤ a))).take 1) = l.max?.toList := by
  rcases hs : l.mergeSort (fun a b => decide (b ≤ a)) with _ | ⟨a, t⟩
  · have hl : l = [] := ((List.mergeSort_perm l _).symm.trans (by rw [hs])).eq_nil
    subst hl
    rfl
  · have hperm := List.mergeSort_perm l (fun a b => decide (b ≤ a))
    have hsorted : (l.mergeSort (fun a b => decide (b ≤ a))).Pairwise
        (fun x y => decide (y ≤ x) = true) :=
      List.sorted_mergeSort (fun a b c hab hbc => by simp_all; omega)
        (fun a b => by simp [Int.le_total]) l
    rw [hs] at hsorted
    have ha : ∀ y ∈ t, y ≤ a := by
      intro y hy
      have := (List.pairwise_cons.mp hsorted).1 y hy
      simpa using this
    have hmem : a ∈ l := hperm.mem_iff.mp (by rw [hs]; exact List.mem_cons_self a t)
    have hle : ∀ b ∈ l, b ≤ a := by
      intro b hb
      have hb2 : b ∈ a :: t := by rw [← hs]; exact hperm.mem_iff.mpr hb
      rcases List.mem_cons.mp hb2 with h | h
      · omega
      · exact ha b h
    haveI : Std.Antisymm ((· : Int) ≤ ·) := ⟨@fun _ _ h h2 => Int.le_antisymm h h2⟩
    have hmax : l.max? = some a :=
      (List.max?_eq_some_iff (fun a : Int => Int.le_refl a)
        (fun a b => max_choice a b) (fun a b c => max_le_iff)).mpr ⟨hmem, hle⟩
    rw [hmax]
    rfl

/-- After an upsert, looking up the upserted key finds the new value. -/
theorem lookupConfig_upsert_self (l : List ConfigEntry) (e : ConfigEntry) :
    lookupConfig (upsertConfig l e) e.chave = some e.valor := by
  induction l with
  | nil => simp [upsertConfig, lookupConfig]
  | cons x xs ih =>
    by_cases hx : x.chave = e.chave
    · simp [upsertConfig, lookupConfig, hx]
    · simp only [upsertConfig, beq_iff_eq, hx, if_false]
      simpa [lookupConfig, hx] using ih

/-- After an upsert, looking up any other key is unchanged. -/
theorem lookupConfig_upsert_ne (l : List ConfigEntry) (e : ConfigEntry) (k : String)
    (hk : k ≠ e.chave) :
    lookupConfig (upsertConfig l e) k = lookupConfig l k := by
  have hek : ¬ e.chave = k := fun h => hk h.symm
  induction l with
  | nil => simp [upsertConfig, lookupConfig, hek]
  | cons x xs ih =>
    by_cases hx : x.chave = e.chave
    · have hxk : ¬ x.chave = k := by rw [hx]; exact hek
      simp [upsertConfig, lookupConfig, hx, hek, hxk]
    · simp only [upsertConfig, beq_iff_eq, hx, if_false]
      by_cases hxk : x.chave = k
      · simp [lookupConfig, hxk]
      · simpa [lookupConfig, hxk] using ih

/-- The per-round key is injective in the round id. -/
theorem chaveRodada_injective {r s : String} (h : chaveRodada r = chaveRodada s) : r = s := by
  have hdata := congrArg String.data h
  simp only [chaveRodada, String.data_append] at hdata
  have h2 := List.append_cancel_right hdata
  have h3 := List.append_cancel_left h2
  exact String.ext h3

/-- The per-round key never collides with the global default key. -/
theorem chaveRodada_ne_padrao (r : String) : chaveRodada r ≠ "pizzas_planejadas_padrao" := by
  intro h
  have hlen := congrArg String.length h
  simp only [chaveRodada, String.length_append] at hlen
  have h7 : ("rodada_" : String).length = 7 := by decide
  have h18 : ("_pizzas_planejadas" : String).length = 18 := by decide
  have h24 : ("pizzas_planejadas_padrao" : String).length = 24 := by decide
  omega

/-- The per-round key never collides with the round-limit key. -/
theorem chaveRodada_ne_limite (r : String) : chaveRodada r ≠ "limite_total_rodadas" := by
  intro h
  have hlen := congrArg String.length h
  simp only [chaveRodada, String.length_append] at hlen
  have h7 : ("rodada_" : String).length = 7 := by decide
  have h18 : ("_pizzas_planejadas" : String).length = 18 := by decide
  have h20 : ("limite_total_rodadas" : String).length = 20 := by decide
  omega

theorem selectSingle_noFaults (db : DB) (k : String) :
    selectSingle db noFaults k =
      Except.ok (match lookupConfig db.configuracoes k with
        | some v => { data := some v, error := none }
        | none => { data := none, error := some "PGRST116" }) := by
  rcases h : lookupConfig db.configuracoes k with _ | v <;>
    simp [selectSingle, noFaults, h]

theorem selectHistorico_noFaults (db : DB) (rid : String) :
    selectHistorico db noFaults rid =
      Except.ok (some ((ordensRodada db rid).max?.toList)) := by
  simp [selectHistorico, noFaults, mergeSortDesc_take_one]

theorem obterDesdeHistoricoBody_noFaults (db : DB) (rid : String) :
    obterDesdeHistoricoBody db noFaults rid = Except.ok (some
      (match (ordensRodada db rid).max? with
       | some m => { numeroPizzasPlanejadas := some m, tempoLimitePorPizza := 0 }
       | none => { numeroPizzasPlanejadas := some 5, tempoLimitePorPizza := 0 })) := by
  rcases hm : (ordensRodada db rid).max? with _ | m <;>
    simp [obterDesdeHistoricoBody, selectHistorico_noFaults, hm, Option.toList,
      Bind.bind, Except.bind, pure, Except.pure]

theorem obterConfigRodada_noFaults (db : DB) (rid : String) :
    obterConfigRodada db noFaults rid = some (resolvedConfig db rid) := by
  rw [obterConfigRodada, obterConfigRodadaBody, resolvedConfig]
  rcases h1 : lookupConfig db.configuracoes (chaveRodada rid) with _ | v1
  · rw [obterDesdePadraoBody]
    rcases h2 : lookupConfig db.configuracoes "pizzas_planejadas_padrao" with _ | v2
    · simp [selectSingle_noFaults, h1, h2, encontrado, Bind.bind, Except.bind,
        obterDesdeHistoricoBody_noFaults, catchPadrao]
    · simp [selectSingle_noFaults, h1, h2, encontrado, Bind.bind, Except.bind,
        pure, Except.pure, catchPadrao]
  · simp [selectSingle_noFaults, h1, encontrado, Bind.bind, Except.bind,
      pure, Except.pure, catchPadrao]

/-! ### Behaviour of `obterLimiteRodadas` per query outcome -/

theorem obterLimiteRodadas_ok (db : DB) (f : Faults)
    (h : f.configQ "limite_total_rodadas" = Fault.ok) :
    obterLimiteRodadas db f =
      match lookupConfig db.configuracoes "limite_total_rodadas" with
      | some v => parseIntJS v
      | none => some 5 := by
  rcases hl : lookupConfig db.configuracoes "limite_total_rodadas" with _ | v <;>
    simp [obterLimiteRodadas, obterLimiteRodadasBody, selectSingle, h, hl,
      Bind.bind, Except.bind, pure, Except.pure]

theorem obterLimiteRodadas_err (db : DB) (f : Faults) (c : String)
    (h : f.configQ "limite_total_rodadas" = Fault.err c) :
    obterLimiteRodadas db f = some 5 := by
  by_cases hc : c = "PGRST116" <;>
    simp [obterLimiteRodadas, obterLimiteRodadasBody, selectSingle, h, hc,
      Bind.bind, Except.bind, pure, Except.pure]

theorem obterLimiteRodadas_thrown (db : DB) (f : Faults)
    (h : f.configQ "limite_total_rodadas" = Fault.thrown) :
    obterLimiteRodadas db f = some 5 := by
  simp [obterLimiteRodadas, obterLimiteRodadasBody, selectSingle, h,
    Bind.bind, Except.bind]

/-! ### Behaviour of `verificarSeExcedeuLimiteRodadas` per query outcome -/

theorem verificar_ok (db : DB) (f : Faults) (h : f.rodadasQ = Fault.ok) :
    verificarSeExcedeuLimiteRodadas db f =
      { excedeu := jsGeNum (contagemFinalizadas db) (obterLimiteRodadas db f)
        totalRodadas := contagemFinalizadas db
        limite := obterLimiteRodadas db f } := by
  have hperm : ((db.rodadas.mergeSort (fun a b => decide (b.numero ≤ a.numero))).filter
      (fun r => r.status == "finalizada")).length =
        (db.rodadas.filter (fun r => r.status == "finalizada")).length :=
    ((List.mergeSort_perm db.rodadas _).filter _).length_eq
  simp [verificarSeExcedeuLimiteRodadas, verificarSeExcedeuLimiteRodadasBody, selectRodadas,
    h, Bind.bind, Except.bind, pure, Except.pure, contagemFinalizadas, hperm]

theorem verificar_fail (db : DB) (f : Faults) (h : f.rodadasQ ≠ Fault.ok) :
    verificarSeExcedeuLimiteRodadas db f =
      { excedeu := false, totalRodadas := 0, limite := some 5 } := by
  rcases hf : f.rodadasQ with _ | c | _
  · exact absurd hf h
  · simp [verificarSeExcedeuLimiteRodadas, verificarSeExcedeuLimiteRodadasBody, selectRodadas,
      hf, Bind.bind, Except.bind]
  · simp [verificarSeExcedeuLimiteRodadas, verificarSeExcedeuLimiteRodadasBody, selectRodadas,
      hf, Bind.bind, Except.bind]

/-! ### Provenance of every value returned by the resolution chain -/

/-- A found lookup value comes from a stored row. -/
theorem lookupConfig_mem {l : List ConfigEntry} {k v : String}
    (h : lookupConfig l k = some v) : ∃ e ∈ l, e.valor = v := by
  rcases hf : l.find? (fun e => e.chave == k) with _ | e
  · simp [lookupConfig, hf] at h
  · refine ⟨e, List.mem_of_find?_eq_some hf, ?_⟩
    simp [lookupConfig, hf] at h
    exact h

/-- Every value produced by an `ordem` query row is a stored `ordem`. -/
theorem ordensRodada_mem {db : DB} {rid : String} {a : Int}
    (h : a ∈ ordensRodada db rid) : ∃ s ∈ db.historico_sabores_rodada, s.ordem = a := by
  rcases List.mem_map.mp h with ⟨s, hs, hsa⟩
  exact ⟨s, (List.mem_filter.mp hs).1, hsa⟩

/-- Shape of a normal answer of the history step: tempo is 0 and the
count is the default 5 or an `ordem` recorded for this round. -/
theorem obterDesdeHistoricoBody_shape (db : DB) (f : Faults) (rid : String)
    (r : Option RodadaConfig) (h : obterDesdeHistoricoBody db f rid = Except.ok r) :
    ∃ cfg, r = some cfg ∧ cfg.tempoLimitePorPizza = 0 ∧
      (cfg.numeroPizzasPlanejadas = some 5 ∨
        ∃ a ∈ ordensRodada db rid, cfg.numeroPizzasPlanejadas = some a) := by
  rcases hf : f.historicoQ rid with _ | c | _
  · rcases ht : ((ordensRodada db rid).mergeSort (fun a b => decide (b ≤ a))).take 1
      with _ | ⟨a, t⟩
    · simp [obterDesdeHistoricoBody, selectHistorico, hf, ht, Bind.bind, Except.bind,
        pure, Except.pure] at h
      exact ⟨_, h.symm, rfl, Or.inl rfl⟩
    · simp [obterDesdeHistoricoBody, selectHistorico, hf, ht, Bind.bind, Except.bind,
        pure, Except.pure] at h
      have ha : a ∈ ordensRodada db rid := by
        have h1 : a ∈ ((ordensRodada db rid).mergeSort (fun a b => decide (b ≤ a))).take 1 := by
          rw [ht]; exact List.mem_cons_self a t
        exact List.mem_mergeSort.mp (List.mem_of_mem_take h1)
      exact ⟨_, h.symm, rfl, Or.inr ⟨a, ha, rfl⟩⟩
  · simp [obterDesdeHistoricoBody, selectHistorico, hf, Bind.bind, Except.bind,
      pure, Except.pure] at h
    exact ⟨_, h.symm, rfl, Or.inl rfl⟩
  · simp [obterDesdeHistoricoBody, selectHistorico, hf, Bind.bind, Except.bind] at h

/-- Shape of a normal answer from the global-default step onwards: the
count is the default 5, the parsed global default the lookup consults,
or an `ordem` recorded for this round. -/
theorem obterDesdePadraoBody_shape (db : DB) (f : Faults) (rid : String)
    (r : Option RodadaConfig) (h : obterDesdePadraoBody db f rid = Except.ok r) :
    ∃ cfg, r = some cfg ∧ cfg.tempoLimitePorPizza = 0 ∧
      (cfg.numeroPizzasPlanejadas = some 5 ∨
       (∃ v, lookupConfig db.configuracoes "pizzas_planejadas_padrao" = some v ∧
         cfg.numeroPizzasPlanejadas = parseIntJS v) ∨
       (∃ a ∈ ordensRodada db rid, cfg.numeroPizzasPlanejadas = some a)) := by
  rcases hf : f.configQ "pizzas_planejadas_padrao" with _ | c | _
  · rcases hl : lookupConfig db.configuracoes "pizzas_planejadas_padrao" with _ | v
    · have h2 : obterDesdeHistoricoBody db f rid = Except.ok r := by
        simpa [obterDesdePadraoBody, selectSingle, hf, hl, encontrado,
          Bind.bind, Except.bind] using h
      rcases obterDesdeHistoricoBody_shape db f rid r h2 with ⟨cfg, h3, h4, h5⟩
      exact ⟨cfg, h3, h4, h5.imp id (fun hh => Or.inr hh)⟩
    · simp [obterDesdePadraoBody, selectSingle, hf, hl, encontrado, Bind.bind, Except.bind,
        pure, Except.pure] at h
      exact ⟨_, h.symm, rfl, Or.inr (Or.inl ⟨v, rfl, rfl⟩)⟩
  · have h2 : obterDesdeHistoricoBody db f rid = Except.ok r := by
      simpa [obterDesdePadraoBody, selectSingle, hf, encontrado,
        Bind.bind, Except.bind] using h
    rcases obterDesdeHistoricoBody_shape db f rid r h2 with ⟨cfg, h3, h4, h5⟩
    exact ⟨cfg, h3, h4, h5.imp id (fun hh => Or.inr hh)⟩
  · simp [obterDesdePadraoBody, selectSingle, hf, Bind.bind, Except.bind] at h

/-- Shape of a normal answer of the whole resolution chain: the count is
the default 5, the parsed value of one of the two keys the chain
consults, or an `ordem` recorded for this round. -/
theorem obterConfigRodadaBody_shape (db : DB) (f : Faults) (rid : String)
    (r : Option RodadaConfig) (h : obterConfigRodadaBody db f rid = Except.ok r) :
    ∃ cfg, r = some cfg ∧ cfg.tempoLimitePorPizza = 0 ∧
      (cfg.numeroPizzasPlanejadas = some 5 ∨
       (∃ v, lookupConfig db.configuracoes (chaveRodada rid) = some v ∧
         cfg.numeroPizzasPlanejadas = parseIntJS v) ∨
       (∃ v, lookupConfig db.configuracoes "pizzas_planejadas_padrao" = some v ∧
         cfg.numeroPizzasPlanejadas = parseIntJS v) ∨
       (∃ a ∈ ordensRodada db rid, cfg.numeroPizzasPlanejadas = some a)) := by
  rcases hf : f.configQ (chaveRodada rid) with _ | c | _
  · rcases hl : lookupConfig db.configuracoes (chaveRodada rid) with _ | v
    · have h2 : obterDesdePadraoBody db f rid = Except.ok r := by
        simpa [obterConfigRodadaBody, selectSingle, hf, hl, encontrado,
          Bind.bind, Except.bind] using h
      rcases obterDesdePadraoBody_shape db f rid r h2 with ⟨cfg, h3, h4, h5⟩
      exact ⟨cfg, h3, h4, h5.imp id (fun hh => Or.inr hh)⟩
    · simp [obterConfigRodadaBody, selectSingle, hf, hl, encontrado, Bind.bind, Except.bind,
        pure, Except.pure] at h
      exact ⟨_, h.symm, rfl, Or.inr (Or.inl ⟨v, rfl, rfl⟩)⟩
  · have h2 : obterDesdePadraoBody db f rid = Except.ok r := by
      simpa [obterConfigRodadaBody, selectSingle, hf, encontrado,
        Bind.bind, Except.bind] using h
    rcases obterDesdePadraoBody_shape db f rid r h2 with ⟨cfg, h3, h4, h5⟩
    exact ⟨cfg, h3, h4, h5.imp id (fun hh => Or.inr hh)⟩
  · simp [obterConfigRodadaBody, selectSingle, hf, Bind.bind, Except.bind] at h

/-- Every result of `obterConfigRodada` is present (never null), has
tempo 0, and its count is the default 5, a parsed stored value, or a
stored `ordem`. -/
theorem obterConfigRodada_shape (db : DB) (f : Faults) (rid : String) :
    ∃ cfg, obterConfigRodada db f rid = some cfg ∧ cfg.tempoLimitePorPizza = 0 ∧
      (cfg.numeroPizzasPlanejadas = some 5 ∨
       (∃ v, lookupConfig db.configuracoes (chaveRodada rid) = some v ∧
         cfg.numeroPizzasPlanejadas = parseIntJS v) ∨
       (∃ v, lookupConfig db.configuracoes "pizzas_planejadas_padrao" = some v ∧
         cfg.numeroPizzasPlanejadas = parseIntJS v) ∨
       (∃ a ∈ ordensRodada db rid, cfg.numeroPizzasPlanejadas = some a)) := by
  rcases hb : obterConfigRodadaBody db f rid with r | r
  · exact ⟨{ numeroPizzasPlanejadas := some 5, tempoLimitePorPizza := 0 },
      by simp [obterConfigRodada, catchPadrao, hb], rfl, Or.inl rfl⟩
  · rcases obterConfigRodadaBody_shape db f rid r hb with ⟨cfg, h1, h2, h3⟩
    exact ⟨cfg, by simp [obterConfigRodada, catchPadrao, hb, h1], h2, h3⟩

/-! ### Error answers let resolution continue down the chain -/

theorem obterConfig_err_especifica (db : DB) (f : Faults) (rid c : String)
    (h : f.configQ (chaveRodada rid) = Fault.err c) :
    obterConfigRodada db f rid = obterDesdePadrao db f rid := by
  simp [obterConfigRodada, obterDesdePadrao, obterConfigRodadaBody, selectSingle, h,
    encontrado, Bind.bind, Except.bind]

theorem obterConfig_err_padrao (db : DB) (f : Faults) (rid c : String)
    (h : f.configQ "pizzas_planejadas_padrao" = Fault.err c) :
    obterDesdePadrao db f rid = obterDesdeHistorico db f rid := by
  simp [obterDesdePadrao, obterDesdeHistorico, obterDesdePadraoBody, selectSingle, h,
    encontrado, Bind.bind, Except.bind]

theorem obterConfig_err_historico (db : DB) (f : Faults) (rid c : String)
    (h : f.historicoQ rid = Fault.err c) :
    obterDesdeHistorico db f rid =
      some { numeroPizzasPlanejadas := some 5, tempoLimitePorPizza := 0 } := by
  simp [obterDesdeHistorico, obterDesdeHistoricoBody, selectHistorico, h, catchPadrao,
    Bind.bind, Except.bind, pure, Except.pure]

/-- The resolved value depends on the store only through the two
configuration keys and the history of the round. -/
theorem resolvedConfig_congr (db db2 : DB) (rid : String)
    (h1 : lookupConfig db2.configuracoes (chaveRodada rid) =
      lookupConfig db.configuracoes (chaveRodada rid))
    (h2 : lookupConfig db2.configuracoes "pizzas_planejadas_padrao" =
      lookupConfig db.configuracoes "pizzas_planejadas_padrao")
    (h3 : db2.historico_sabores_rodada = db.historico_sabores_rodada) :
    resolvedConfig db2 rid = resolvedConfig db rid := by
  simp only [resolvedConfig, ordensRodada, h1, h2, h3]

/-! ### Claims -/

/-- C1: for every store state, `obterConfigRodada` resolves the planned
count from the first available source in the fixed order (per-round
entry, then global default `pizzas_planejadas_padrao`, then the greatest
recorded `ordem` of the round, then the hardcoded 5, as spelled out by
`resolvedConfig`), and every returned result has `tempoLimitePorPizza`
equal to 0 under every store behaviour. -/
theorem claim_C1_resolution_order (db : DB) (rodadaId : String) :
    obterConfigRodada db noFaults rodadaId = some (resolvedConfig db rodadaId) ∧
    ∀ (f : Faults) (cfg : RodadaConfig), obterConfigRodada db f rodadaId = some cfg →
      cfg.tempoLimitePorPizza = 0 := by
  refine ⟨obterConfigRodada_noFaults db rodadaId, ?_⟩
  intro f cfg hcfg
  rcases obterConfigRodada_shape db f rodadaId with ⟨cfg2, h1, h2, _⟩
  have h3 : cfg = cfg2 := by
    have := hcfg.symm.trans h1
    injection this
  rw [h3]
  exact h2

/-- Witness for C1 at a concrete store: the chain resolves the per-round
entry of `dbSete`, and a concretely returned result has tempo 0. -/
theorem claim_C1_witness :
    (obterConfigRodada dbSete noFaults "r" = some (resolvedConfig dbSete "r") ∧
      resolvedConfig dbSete "r" =
        { numeroPizzasPlanejadas := some 7, tempoLimitePorPizza := 0 }) ∧
    ({ numeroPizzasPlanejadas := some 7, tempoLimitePorPizza := 0 } :
      RodadaConfig).tempoLimitePorPizza = 0 :=
  ⟨⟨(claim_C1_resolution_order dbSete "r").1, by decide⟩,
    (claim_C1_resolution_order dbSete "r").2 noFaults
      { numeroPizzasPlanejadas := some 7, tempoLimitePorPizza := 0 } (by decide)⟩

/-- C2: whenever the rounds fetch answers normally,
`verificarSeExcedeuLimiteRodadas` returns `excedeu` = (finalized count ≥
limit from `obterLimiteRodadas`), and its `totalRodadas` field carries the
finalized count only (not the number of created rounds). -/
theorem claim_C2_finalized_count (db : DB) (f : Faults) (h : f.rodadasQ = Fault.ok) :
    verificarSeExcedeuLimiteRodadas db f =
      { excedeu := jsGeNum (contagemFinalizadas db) (obterLimiteRodadas db f)
        totalRodadas := contagemFinalizadas db
        limite := obterLimiteRodadas db f } :=
  verificar_ok db f h

/-- Witness for C2: limit 3 with statuses finalizada, finalizada,
finalizada, criada gives exceeded with finalized count 3 (not 4). -/
theorem claim_C2_witness :
    noFaults.rodadasQ = Fault.ok ∧
    verificarSeExcedeuLimiteRodadas dbTresFinalizadas noFaults =
      { excedeu := true, totalRodadas := 3, limite := some 3 } := by
  refine ⟨rfl, ?_⟩
  rw [claim_C2_finalized_count dbTresFinalizadas noFaults rfl]
  decide

/-- C3 counterexample: with the per-round entry of round `r` holding the
non-numeric string abc, the returned planned count is `NaN` (`none`),
which is neither a positive integer nor the default 5; the claimed
invariant fails at this store state. -/
theorem claim_C3_counterexample :
    obterConfigRodada dbNaN noFaults "r" =
      some { numeroPizzasPlanejadas := none, tempoLimitePorPizza := 0 } ∧
    (obterConfigRodada dbNaN noFaults "r").all
      (fun cfg => cfg.numeroPizzasPlanejadas.any
        (fun k => decide (0 < k) || k == 5)) = false := by
  constructor
  · decide
  · decide

/-- C3 amended: when every stored value the resolution consults (the
per-round entry of this round and the global default entry) parses to a
positive integer, and every `ordem` recorded for this round is
positive, the planned count returned by `obterConfigRodada` is a
positive integer (the default 5 included), under every store
behaviour. -/
theorem claim_C3_amended (db : DB) (f : Faults) (rodadaId : String)
    (hesp : ∀ v, lookupConfig db.configuracoes (chaveRodada rodadaId) = some v →
      ∃ k : Int, parseIntJS v = some k ∧ 0 < k)
    (hpad : ∀ v, lookupConfig db.configuracoes "pizzas_planejadas_padrao" = some v →
      ∃ k : Int, parseIntJS v = some k ∧ 0 < k)
    (hord : ∀ a ∈ ordensRodada db rodadaId, (0 : Int) < a) :
    ∃ cfg k, obterConfigRodada db f rodadaId = some cfg ∧
      cfg.numeroPizzasPlanejadas = some k ∧ 0 < k := by
  rcases obterConfigRodada_shape db f rodadaId with ⟨cfg, h1, _, h3⟩
  rcases h3 with h | ⟨v, hv, hnum⟩ | ⟨v, hv, hnum⟩ | ⟨a, ha, hnum⟩
  · exact ⟨cfg, 5, h1, h, by omega⟩
  · rcases hesp v hv with ⟨k, hk, hkpos⟩
    exact ⟨cfg, k, h1, by rw [hnum, hk], hkpos⟩
  · rcases hpad v hv with ⟨k, hk, hkpos⟩
    exact ⟨cfg, k, h1, by rw [hnum, hk], hkpos⟩
  · exact ⟨cfg, a, h1, hnum, hord a ha⟩

/-- Witness for the amended C3 at a concrete store holding the value 7. -/
theorem claim_C3_witness :
    ∃ cfg k, obterConfigRodada dbSete noFaults "r" = some cfg ∧
      cfg.numeroPizzasPlanejadas = some k ∧ 0 < k :=
  claim_C3_amended dbSete noFaults "r"
    (by
      intro v hv
      have h7 : lookupConfig dbSete.configuracoes (chaveRodada "r") = some "7" := by decide
      have hv7 := h7.symm.trans hv
      injection hv7 with hv7
      subst hv7
      exact ⟨7, by decide, by decide⟩)
    (by
      intro v hv
      have hnone : lookupConfig dbSete.configuracoes "pizzas_planejadas_padrao" = none := by
        decide
      rw [hnone] at hv
      cases hv)
    (by intro a ha; simp [ordensRodada, dbSete] at ha)

/-- C4: an error answer at a lookup step does not abort resolution: an
error on the per-round entry continues with the chain started at the
global default, an error there continues with the history step, and an
error on the history query reaches the final default `{5, 0}`. -/
theorem claim_C4_error_continues (db : DB) (f : Faults) (rodadaId c : String) :
    (f.configQ (chaveRodada rodadaId) = Fault.err c →
      obterConfigRodada db f rodadaId = obterDesdePadrao db f rodadaId) ∧
    (f.configQ "pizzas_planejadas_padrao" = Fault.err c →
      obterDesdePadrao db f rodadaId = obterDesdeHistorico db f rodadaId) ∧
    (f.historicoQ rodadaId = Fault.err c →
      obterDesdeHistorico db f rodadaId =
        some { numeroPizzasPlanejadas := some 5, tempoLimitePorPizza := 0 }) :=
  ⟨obterConfig_err_especifica db f rodadaId c,
   obterConfig_err_padrao db f rodadaId c,
   obterConfig_err_historico db f rodadaId c⟩

/-- Witness for C4: with every request answering an error, resolution
walks the whole chain and ends at the default. -/
theorem claim_C4_witness :
    obterConfigRodada dbVazio fErro "r" = obterDesdePadrao dbVazio fErro "r" ∧
    obterDesdePadrao dbVazio fErro "r" = obterDesdeHistorico dbVazio fErro "r" ∧
    obterDesdeHistorico dbVazio fErro "r" =
      some { numeroPizzasPlanejadas := some 5, tempoLimitePorPizza := 0 } :=
  ⟨(claim_C4_error_continues dbVazio fErro "r" "boom").1 rfl,
   (claim_C4_error_continues dbVazio fErro "r" "boom").2.1 rfl,
   (claim_C4_error_continues dbVazio fErro "r" "boom").2.2 rfl⟩

/-- C5: `obterConfigRodada` always returns a present value (never the
null of its declared return type, never an uncaught rejection), and a
failure caught by its handler yields exactly `{5, 0}`. -/
theorem claim_C5_total (db : DB) (f : Faults) (rodadaId : String) :
    (obterConfigRodada db f rodadaId).isSome = true ∧
    (obterConfigRodadaBody db f rodadaId = Except.error () →
      obterConfigRodada db f rodadaId =
        some { numeroPizzasPlanejadas := some 5, tempoLimitePorPizza := 0 }) := by
  constructor
  · rcases obterConfigRodada_shape db f rodadaId with ⟨cfg, h1, _, _⟩
    simp [h1]
  · intro he
    simp [obterConfigRodada, catchPadrao, he]

/-- Witness for C5: a rejecting store still produces the default value. -/
theorem claim_C5_witness :
    (obterConfigRodada dbVazio fRejeita "r").isSome = true ∧
    obterConfigRodada dbVazio fRejeita "r" =
      some { numeroPizzasPlanejadas := some 5, tempoLimitePorPizza := 0 } :=
  ⟨(claim_C5_total dbVazio fRejeita "r").1,
   (claim_C5_total dbVazio fRejeita "r").2 rfl⟩

/-- C6: `obterLimiteRodadas` returns the parsed stored value on a normal
answer with the entry present, 5 on the not-found condition, and 5 on
any other storage error (error object or rejection); the match on the
three query outcomes shows it never propagates a failure. -/
theorem claim_C6_limit_resolution (db : DB) (f : Faults) :
    (f.configQ "limite_total_rodadas" = Fault.ok →
      obterLimiteRodadas db f =
        match lookupConfig db.configuracoes "limite_total_rodadas" with
        | some v => parseIntJS v
        | none => some 5) ∧
    (∀ c, f.configQ "limite_total_rodadas" = Fault.err c →
      obterLimiteRodadas db f = some 5) ∧
    (f.configQ "limite_total_rodadas" = Fault.thrown →
      obterLimiteRodadas db f = some 5) :=
  ⟨obterLimiteRodadas_ok db f,
   fun c => obterLimiteRodadas_err db f c,
   obterLimiteRodadas_thrown db f⟩

/-- Witness for C6: stored limit 7 is returned; an erroring or rejecting
store yields 5. -/
theorem claim_C6_witness :
    obterLimiteRodadas dbLimite7 noFaults = some 7 ∧
    obterLimiteRodadas dbLimite7 fErro = some 5 ∧
    obterLimiteRodadas dbLimite7 fRejeita = some 5 := by
  refine ⟨?_, ?_, ?_⟩
  · rw [(claim_C6_limit_resolution dbLimite7 noFaults).1 rfl]
    decide
  · exact (claim_C6_limit_resolution dbLimite7 fErro).2.1 "boom" rfl
  · exact (claim_C6_limit_resolution dbLimite7 fRejeita).2.2 rfl

/-- C7 counterexample: the round trip fails at 10^21, an exactly
representable integral double: `toString` prints it in exponential
notation 1e+21, and `parseInt` reads that string back as 1, so the
saved count 10^21 is read back as 1. -/
theorem claim_C7_counterexample :
    salvarConfigRodada dbVazio noFaults "r" (1000000000000000000000 : Int) =
      Except.ok dbGrande ∧
    obterConfigRodada dbGrande noFaults "r" =
      some { numeroPizzasPlanejadas := some 1, tempoLimitePorPizza := 0 } ∧
    (1 : Int) ≠ (1000000000000000000000 : Int) := by
  have hjs : jsIntToString (1000000000000000000000 : Int) = "1e+21" := by
    have h0 : (1000000000000000000000 : Int).toNat = 1000000000000000000000 := by decide
    have hds : natDigitsChars 1000000000000000000000 =
        ['1', '0', '0', '0', '0', '0', '0', '0', '0', '0', '0',
         '0', '0', '0', '0', '0', '0', '0', '0', '0', '0', '0'] := by
      norm_num [natDigitsChars_ge, natDigitsChars_lt, dChar]
    have he : natDigitsChars 21 = ['2', '1'] := by
      norm_num [natDigitsChars_ge, natDigitsChars_lt, dChar]
    rw [jsIntToString, if_neg (by norm_num), h0, jsNatToString, if_neg (by norm_num)]
    unfold jsExpNotation
    rw [hds]
    norm_num [he]
    decide
  refine ⟨rfl, ?_, by norm_num⟩
  rw [obterConfigRodada_noFaults]
  have hlook : lookupConfig dbGrande.configuracoes (chaveRodada "r") =
      some (jsIntToString (1000000000000000000000 : Int)) := by
    simp [dbGrande, lookupConfig, entryConfigRodada]
  rw [resolvedConfig, hlook, hjs]
  decide

/-- C7 amended: the round trip holds on the decimal-notation range of
`toString`: for every count and limit of magnitude below 10^21, a
successful save followed by the read returns exactly the saved value
(for a count, with tempo 0).  From 10^21 on, `toString` switches to
exponential notation and `parseInt` no longer reads the value back. -/
theorem claim_C7_round_trip (db : DB) (f : Faults) (rodadaId : String) (n m : Int)
    (db₁ db₂ : DB) (hn : n.natAbs < 10 ^ 21) (hm : m.natAbs < 10 ^ 21) :
    (salvarConfigRodada db f rodadaId n = Except.ok db₁ →
      obterConfigRodada db₁ noFaults rodadaId =
        some { numeroPizzasPlanejadas := some n, tempoLimitePorPizza := 0 }) ∧
    (salvarLimiteRodadas db f m = Except.ok db₂ →
      obterLimiteRodadas db₂ noFaults = some m) := by
  constructor
  · intro h
    rcases hq : f.upsertQ (chaveRodada rodadaId) with _ | c | _ <;>
      simp only [salvarConfigRodada, hq] at h
    · injection h with h
      subst h
      rw [obterConfigRodada_noFaults]
      have hl : lookupConfig (upsertConfig db.configuracoes (entryConfigRodada rodadaId n))
          (chaveRodada rodadaId) = some (jsIntToString n) := by
        simpa [entryConfigRodada] using
          lookupConfig_upsert_self db.configuracoes (entryConfigRodada rodadaId n)
      simp [resolvedConfig, hl, parseIntJS_jsIntToString n hn]
    · cases h
    · cases h
  · intro h
    rcases hq : f.upsertQ "limite_total_rodadas" with _ | c | _ <;>
      simp only [salvarLimiteRodadas, hq] at h
    · injection h with h
      subst h
      rw [obterLimiteRodadas_ok _ _ rfl]
      have hl : lookupConfig (upsertConfig db.configuracoes (entryLimite m))
          "limite_total_rodadas" = some (jsIntToString m) := by
        simpa [entryLimite] using
          lookupConfig_upsert_self db.configuracoes (entryLimite m)
      simp [hl, parseIntJS_jsIntToString m hm]
    · cases h
    · cases h

/-- Witness for the amended C7: saving 7 for round `r` and reading it
back gives `{7, 0}`; saving limit 10 and reading it back gives 10. -/
theorem claim_C7_witness :
    salvarConfigRodada dbVazio noFaults "r" 7 = Except.ok dbConfig7 ∧
    obterConfigRodada dbConfig7 noFaults "r" =
      some { numeroPizzasPlanejadas := some 7, tempoLimitePorPizza := 0 } ∧
    salvarLimiteRodadas dbVazio noFaults 10 = Except.ok dbLimite10 ∧
    obterLimiteRodadas dbLimite10 noFaults = some 10 :=
  ⟨rfl,
   (claim_C7_round_trip dbVazio noFaults "r" 7 10 dbConfig7 dbLimite10
      (by norm_num) (by norm_num)).1 rfl,
   rfl,
   (claim_C7_round_trip dbVazio noFaults "r" 7 10 dbConfig7 dbLimite10
      (by norm_num) (by norm_num)).2 rfl⟩

/-- C8: when the rounds fetch fails (error object or rejection), the
check returns exactly `{excedeu: false, totalRodadas: 0, limite: 5}`
instead of propagating the failure. -/
theorem claim_C8_check_error_default (db : DB) (f : Faults) (h : f.rodadasQ ≠ Fault.ok) :
    verificarSeExcedeuLimiteRodadas db f =
      { excedeu := false, totalRodadas := 0, limite := some 5 } :=
  verificar_fail db f h

/-- Witness for C8 on a store with rounds present but an erroring fetch. -/
theorem claim_C8_witness :
    fErro.rodadasQ ≠ Fault.ok ∧
    verificarSeExcedeuLimiteRodadas dbTresFinalizadas fErro =
      { excedeu := false, totalRodadas := 0, limite := some 5 } :=
  ⟨by decide, claim_C8_check_error_default dbTresFinalizadas fErro (by decide)⟩

/-- C9: the save operations raise an error to the caller exactly when
the upsert reports a failure, and on a normal answer they return with
the single upserted row applied. -/
theorem claim_C9_save_error_iff (db : DB) (f : Faults) (rodadaId : String) (n m : Int) :
    (salvarConfigRodada db f rodadaId n = Except.error () ↔
      f.upsertQ (chaveRodada rodadaId) ≠ Fault.ok) ∧
    (f.upsertQ (chaveRodada rodadaId) = Fault.ok →
      salvarConfigRodada db f rodadaId n = Except.ok
        { db with configuracoes :=
            upsertConfig db.configuracoes (entryConfigRodada rodadaId n) }) ∧
    (salvarLimiteRodadas db f m = Except.error () ↔
      f.upsertQ "limite_total_rodadas" ≠ Fault.ok) ∧
    (f.upsertQ "limite_total_rodadas" = Fault.ok →
      salvarLimiteRodadas db f m = Except.ok
        { db with configuracoes := upsertConfig db.configuracoes (entryLimite m) }) := by
  refine ⟨?_, ?_, ?_, ?_⟩
  · rcases hq : f.upsertQ (chaveRodada rodadaId) with _ | c | _ <;>
      simp [salvarConfigRodada, hq]
  · intro hq
    simp [salvarConfigRodada, hq]
  · rcases hq : f.upsertQ "limite_total_rodadas" with _ | c | _ <;>
      simp [salvarLimiteRodadas, hq]
  · intro hq
    simp [salvarLimiteRodadas, hq]

/-- Witness for C9: an erroring upsert raises, a rejecting upsert
raises, and normal upserts return the updated stores. -/
theorem claim_C9_witness :
    salvarConfigRodada dbVazio fErro "r" 1 = Except.error () ∧
    salvarConfigRodada dbVazio noFaults "r" 7 = Except.ok dbConfig7 ∧
    salvarLimiteRodadas dbVazio fRejeita 2 = Except.error () ∧
    salvarLimiteRodadas dbVazio noFaults 10 = Except.ok dbLimite10 :=
  ⟨(claim_C9_save_error_iff dbVazio fErro "r" 1 2).1.mpr (by decide),
   (claim_C9_save_error_iff dbVazio noFaults "r" 7 10).2.1 rfl,
   (claim_C9_save_error_iff dbVazio fRejeita "r" 1 2).2.2.1.mpr (by decide),
   (claim_C9_save_error_iff dbVazio noFaults "r" 7 10).2.2.2 rfl⟩

/-- C10: the read operations are pure functions of the store (they are
embedded without any write), and each successful save changes exactly
its one key: the other tables are untouched, every other key looks up
unchanged, reads of other rounds and of the limit are unchanged after a
per-round save, and every per-round read is unchanged after a limit
save. -/
theorem claim_C10_frame (db : DB) (f : Faults) (rodadaId rid2 : String) (n m : Int)
    (db₁ db₂ : DB) :
    (salvarConfigRodada db f rodadaId n = Except.ok db₁ →
      db₁.historico_sabores_rodada = db.historico_sabores_rodada ∧
      db₁.rodadas = db.rodadas ∧
      (∀ k, k ≠ chaveRodada rodadaId →
        lookupConfig db₁.configuracoes k = lookupConfig db.configuracoes k) ∧
      (rid2 ≠ rodadaId →
        obterConfigRodada db₁ noFaults rid2 = obterConfigRodada db noFaults rid2) ∧
      obterLimiteRodadas db₁ noFaults = obterLimiteRodadas db noFaults ∧
      verificarSeExcedeuLimiteRodadas db₁ noFaults =
        verificarSeExcedeuLimiteRodadas db noFaults) ∧
    (salvarLimiteRodadas db f m = Except.ok db₂ →
      db₂.historico_sabores_rodada = db.historico_sabores_rodada ∧
      db₂.rodadas = db.rodadas ∧
      (∀ k, k ≠ "limite_total_rodadas" →
        lookupConfig db₂.configuracoes k = lookupConfig db.configuracoes k) ∧
      (∀ r, obterConfigRodada db₂ noFaults r = obterConfigRodada db noFaults r)) := by
  constructor
  · intro h
    rcases hq : f.upsertQ (chaveRodada rodadaId) with _ | c | _ <;>
      simp only [salvarConfigRodada, hq] at h
    rotate_left
    · cases h
    · cases h
    injection h with h
    subst h
    have hlook : ∀ k, k ≠ chaveRodada rodadaId →
        lookupConfig (upsertConfig db.configuracoes (entryConfigRodada rodadaId n)) k =
          lookupConfig db.configuracoes k := by
      intro k hk
      exact lookupConfig_upsert_ne db.configuracoes (entryConfigRodada rodadaId n) k
        (by simpa [entryConfigRodada] using hk)
    have hlim : obterLimiteRodadas
          { db with configuracoes :=
              upsertConfig db.configuracoes (entryConfigRodada rodadaId n) } noFaults =
        obterLimiteRodadas db noFaults := by
      rw [obterLimiteRodadas_ok _ _ rfl, obterLimiteRodadas_ok _ _ rfl]
      rw [hlook "limite_total_rodadas" (Ne.symm (chaveRodada_ne_limite rodadaId))]
    refine ⟨rfl, rfl, hlook, ?_, hlim, ?_⟩
    · intro hne
      rw [obterConfigRodada_noFaults, obterConfigRodada_noFaults]
      exact congrArg some (resolvedConfig_congr db _ rid2
        (hlook (chaveRodada rid2) (fun hc => hne (chaveRodada_injective hc)))
        (hlook "pizzas_planejadas_padrao" (Ne.symm (chaveRodada_ne_padrao rodadaId)))
        rfl)
    · rw [verificar_ok _ _ rfl, verificar_ok _ _ rfl, hlim]
      rfl
  · intro h
    rcases hq : f.upsertQ "limite_total_rodadas" with _ | c | _ <;>
      simp only [salvarLimiteRodadas, hq] at h
    rotate_left
    · cases h
    · cases h
    injection h with h
    subst h
    have hlook : ∀ k, k ≠ "limite_total_rodadas" →
        lookupConfig (upsertConfig db.configuracoes (entryLimite m)) k =
          lookupConfig db.configuracoes k := by
      intro k hk
      exact lookupConfig_upsert_ne db.configuracoes (entryLimite m) k
        (by simpa [entryLimite] using hk)
    refine ⟨rfl, rfl, hlook, ?_⟩
    intro r
    rw [obterConfigRodada_noFaults, obterConfigRodada_noFaults]
    exact congrArg some (resolvedConfig_congr db _ r
      (hlook (chaveRodada r) (chaveRodada_ne_limite r))
      (hlook "pizzas_planejadas_padrao" (by decide))
      rfl)

/-- Witness for C10: saving round `a` into the empty store leaves round
`b` reads, the limit read, and the limit check unchanged, and a limit
save leaves per-round reads unchanged. -/
theorem claim_C10_witness :
    salvarConfigRodada dbVazio noFaults "a" 1 = Except.ok dbUmA ∧
    (obterConfigRodada dbUmA noFaults "b" = obterConfigRodada dbVazio noFaults "b" ∧
      obterLimiteRodadas dbUmA noFaults = obterLimiteRodadas dbVazio noFaults) ∧
    salvarLimiteRodadas dbVazio noFaults 10 = Except.ok dbLimite10 ∧
    obterConfigRodada dbLimite10 noFaults "a" = obterConfigRodada dbVazio noFaults "a" := by
  refine ⟨rfl, ⟨?_, ?_⟩, rfl, ?_⟩
  · exact (((claim_C10_frame dbVazio noFaults "a" "b" 1 10 dbUmA dbLimite10).1
      rfl).2.2.2.1 (by decide))
  · exact ((claim_C10_frame dbVazio noFaults "a" "b" 1 10 dbUmA dbLimite10).1
      rfl).2.2.2.2.1
  · exact (((claim_C10_frame dbVazio noFaults "a" "b" 1 10 dbUmA dbLimite10).2
      rfl).2.2.2 "a")
